import Mathlib

/-!
Verification of the company-news backend (two Express servers,
`src/server.js` and `src/nodejs-backend.js`) against its design
specification. The JavaScript handlers are embedded shallowly: each
handler becomes a total Lean function from the parsed request input and
the (already received) upstream outcome to the JSON response it writes,
with JavaScript field absence modelled by `Option` and JavaScript string
truthiness modelled explicitly.
-/

/-- Model of JavaScript string truthiness for an optional string field:
a field is truthy when it is present and non-empty. -/
def truthy : Option String → Bool
  | some s => !(s == "")
  | none => false

/-- Model of the JavaScript `x || d` default on an optional string field. -/
def stringOr (o : Option String) (d : String) : String :=
  match o with
  | some s => if s == "" then d else s
  | none => d

/-- Model of JavaScript `String.prototype.toLowerCase` (character-wise,
as applied to the ASCII data in this program). -/
def lowerStr (s : String) : String :=
  String.mk (s.data.map Char.toLower)

/-- Model of JavaScript `String.prototype.toUpperCase` (character-wise). -/
def upperStr (s : String) : String :=
  String.mk (s.data.map Char.toUpper)

/-- Model of JavaScript `String.prototype.trim`: drop whitespace from
both ends. -/
def trimStr (s : String) : String :=
  String.mk (((s.data.dropWhile Char.isWhitespace).reverse.dropWhile Char.isWhitespace).reverse)

/-- Does `pat` occur as a contiguous run starting at some position of the
list? Model of JavaScript `String.prototype.includes`, on char lists. -/
def containsFrom (pat : List Char) : List Char → Bool
  | [] => pat.isEmpty
  | c :: rest => pat.isPrefixOf (c :: rest) || containsFrom pat rest

/-- Model of JavaScript `s.includes(pat)`. -/
def strContains (s pat : String) : Bool :=
  containsFrom pat.data s.data

/-! ## News endpoint data model (`/api/company-news/:companyName`) -/

/-- The `source` object of a raw NewsAPI article. -/
structure ArticleSource where
  name : Option String := none
deriving DecidableEq

/-- A raw article as delivered by the news upstream. Every field may be
absent. -/
structure RawArticle where
  title : Option String := none
  source : Option ArticleSource := none
  publishedAt : Option String := none
  description : Option String := none
  url : Option String := none
  urlToImage : Option String := none
deriving DecidableEq

/-- `article.source?.name` in the handlers. -/
def sourceName (a : RawArticle) : Option String :=
  match a.source with
  | some s => s.name
  | none => none

/-- The filter predicate of the `formattedNews` pipeline:
`article.title && article.source?.name && article.title !== '[Removed]'
&& !article.title.toLowerCase().includes('removed')`. -/
def keepArticle (a : RawArticle) : Bool :=
  truthy a.title &&
  truthy (sourceName a) &&
  !(a.title.getD "" == "[Removed]") &&
  !(strContains (lowerStr (a.title.getD "")) "removed")

/-- The public article shape produced by the `.map` stage. -/
structure PublicArticle where
  title : String
  source : String
  date : String
  summary : String
  url : Option String
  imageUrl : Option String
deriving DecidableEq

/-- `publishedAt.split('T')[0]`: the date portion before the first `T`. -/
def dateOfTimestamp (s : String) : String :=
  String.mk (s.data.takeWhile (fun c => !(c == 'T')))

/-- The `.map` stage of `formattedNews`; `today` is the value of
`new Date().toISOString().split('T')[0]` at format time. -/
def toPublic (today : String) (a : RawArticle) : PublicArticle :=
  { title := a.title.getD ""
    source := (sourceName a).getD ""
    date := if truthy a.publishedAt then dateOfTimestamp (a.publishedAt.getD "") else today
    summary := stringOr a.description "No summary available"
    url := a.url
    imageUrl := a.urlToImage }

/-- The filter-and-cap stage of the pipeline: `.filter(...).slice(0, 8)`. -/
def filterCap (l : List RawArticle) : List RawArticle :=
  (l.filter keepArticle).take 8

/-- The whole `formattedNews` pipeline:
`.filter(...).slice(0, 8).map(...)`. -/
def formatNews (today : String) (l : List RawArticle) : List PublicArticle :=
  (filterCap l).map (toPublic today)

/-- How the handlers would read one of their own output objects back as a
raw article: the output `source` field is a plain string, so
`article.source?.name` is undefined on it; the output carries `date`,
`summary` and `imageUrl` instead of `publishedAt`, `description` and
`urlToImage`, so those reads are undefined as well. -/
def reparse (a : PublicArticle) : RawArticle :=
  { title := some a.title
    source := none
    publishedAt := none
    description := none
    url := a.url
    urlToImage := none }

/-! ## Company-news response -/

/-- Raw payload of the news upstream, as used by the handler:
`data.articles || []` and `data.totalResults || 0`. -/
structure NewsPayload where
  articles : Option (List RawArticle) := none
  totalResults : Option Nat := none
deriving DecidableEq

/-- Outcome of the single outbound news call: a parsed payload, or a
transport-level failure carrying the optional HTTP status of the failed
response, the optional upstream body message, and the exception message. -/
inductive NewsOutcome where
  | success : NewsPayload → NewsOutcome
  | failure : Option Nat → Option String → String → NewsOutcome
deriving DecidableEq

/-- JSON response of the news endpoint (absent fields are `none`). -/
structure NewsResponse where
  status : Nat
  companyName : Option String := none
  totalResults : Option Nat := none
  news : Option (List PublicArticle) := none
  error : Option String := none
  details : Option String := none
  suggestion : Option String := none
deriving DecidableEq

/-- `GET /api/company-news/:companyName` in `src/server.js`. -/
def serverCompanyNews (companyName today : String) : NewsOutcome → NewsResponse
  | .success p =>
      { status := 200
        companyName := some companyName
        totalResults := some (p.totalResults.getD 0)
        news := some (formatNews today (p.articles.getD [])) }
  | .failure st dataMsg msg =>
      if st == some 426 then
        { status := 426
          error := some "NewsAPI requires upgrade for this request"
          details := some "Free tier has limitations on search parameters" }
      else
        { status := 500
          error := some "Failed to fetch company news"
          details := some (stringOr dataMsg msg)
          suggestion := some "Try a more specific company name or try again later" }

/-- `GET /api/company-news/:companyName` in `src/nodejs-backend.js`
(textually identical logic to the server.js handler). -/
def nodeCompanyNews (companyName today : String) : NewsOutcome → NewsResponse
  | .success p =>
      { status := 200
        companyName := some companyName
        totalResults := some (p.totalResults.getD 0)
        news := some (formatNews today (p.articles.getD [])) }
  | .failure st dataMsg msg =>
      if st == some 426 then
        { status := 426
          error := some "NewsAPI requires upgrade for this request"
          details := some "Free tier has limitations on search parameters" }
      else
        { status := 500
          error := some "Failed to fetch company news"
          details := some (stringOr dataMsg msg)
          suggestion := some "Try a more specific company name or try again later" }

/-! ## Company-info endpoint data model (`/api/company-info/:symbol`) -/

/-- One hex digit, uppercase, as emitted by `encodeURIComponent`. -/
def hexDigitChar (n : Nat) : Char :=
  if n < 10 then Char.ofNat (48 + n) else Char.ofNat (55 + n)

/-- UTF-8 bytes of a code point, as percent-encoded by
`encodeURIComponent`. -/
def utf8Bytes (n : Nat) : List Nat :=
  if n < 128 then [n]
  else if n < 2048 then [192 + n / 64, 128 + n % 64]
  else if n < 65536 then [224 + n / 4096, 128 + (n / 64) % 64, 128 + n % 64]
  else [240 + n / 262144, 128 + (n / 4096) % 64, 128 + (n / 64) % 64, 128 + n % 64]

/-- Characters left unescaped by JavaScript `encodeURIComponent`:
letters, digits, and `- _ . ! ~ * ( )` together with the single-quote
character (code 39). -/
def isUnreservedURIChar (c : Char) : Bool :=
  c.isAlpha || c.isDigit ||
  c == Char.ofNat 45 || c == Char.ofNat 95 || c == Char.ofNat 46 ||
  c == Char.ofNat 33 || c == Char.ofNat 126 || c == Char.ofNat 42 ||
  c == Char.ofNat 39 || c == Char.ofNat 40 || c == Char.ofNat 41

/-- Percent-encoding of one character. -/
def percentEncodeChar (c : Char) : List Char :=
  (utf8Bytes c.toNat).foldr
    (fun b acc => Char.ofNat 37 :: hexDigitChar (b / 16) :: hexDigitChar (b % 16) :: acc) []

/-- Model of JavaScript `encodeURIComponent`. -/
def encodeURIComponent (s : String) : String :=
  String.mk (s.data.foldr
    (fun c acc => if isUnreservedURIChar c then c :: acc else percentEncodeChar c ++ acc) [])

/-- Raw fundamentals payload from the quote upstream (`OVERVIEW`); may be
a rate-limit marker (`Note`) or an informational marker (`Information`)
instead of company data. -/
structure OverviewPayload where
  Note : Option String := none
  Information : Option String := none
  Name : Option String := none
  Symbol : Option String := none
  Sector : Option String := none
  Industry : Option String := none
  MarketCapitalization : Option String := none
  Description : Option String := none
  Exchange : Option String := none
  Country : Option String := none
deriving DecidableEq

/-- The derived `annualReport` reference object. -/
structure AnnualReport where
  year : String
  title : String
  url : String
  type : String
deriving DecidableEq

/-- The public company-info shape. -/
structure CompanyInfo where
  name : String
  symbol : String
  sector : String
  industry : String
  marketCap : String
  description : String
  exchange : String
  country : String
  annualReport : Option AnnualReport
deriving DecidableEq

/-- Outcome of the outbound fundamentals call: parsed payload or a
transport-level failure with its exception message. -/
inductive InfoOutcome where
  | success : OverviewPayload → InfoOutcome
  | failure : String → InfoOutcome
deriving DecidableEq

/-- JSON response of the company-info endpoint. -/
structure InfoResponse where
  status : Nat
  error : Option String := none
  details : Option String := none
  suggestion : Option String := none
  info : Option CompanyInfo := none
deriving DecidableEq

/-- `GET /api/company-info/:symbol` in `src/server.js`. -/
def serverCompanyInfo (symbol : String) : InfoOutcome → InfoResponse
  | .failure msg =>
      { status := 500
        error := some "Failed to fetch company information"
        details := some msg
        suggestion := some "Please try again or check if the symbol exists" }
  | .success data =>
      if truthy data.Note then
        { status := 429
          error := some "API rate limit reached"
          suggestion := some "Alpha Vantage allows 5 requests per minute. Please try again in a moment." }
      else if truthy data.Information then
        { status := 400
          error := some "API request issue"
          details := data.Information }
      else if !truthy data.Name && !truthy data.Symbol then
        { status := 404
          error := some "Company not found"
          suggestion := some "Please check the stock symbol and try again" }
      else
        { status := 200
          info := some
            { name := stringOr data.Name "Unknown Company"
              symbol := stringOr data.Symbol (upperStr symbol)
              sector := stringOr data.Sector "Not Available"
              industry := stringOr data.Industry "Not Available"
              marketCap := stringOr data.MarketCapitalization "Not Available"
              description := stringOr data.Description "No description available"
              exchange := stringOr data.Exchange "Not Available"
              country := stringOr data.Country "Not Available"
              annualReport :=
                if truthy data.Symbol then
                  some { year := "2023"
                         title := stringOr data.Name symbol ++ " Annual Report 2023"
                         url := "https://www.sec.gov/edgar/search/#/entityName=" ++
                                encodeURIComponent (stringOr data.Name symbol)
                         type := "SEC EDGAR Database" }
                else none } }

/-- `GET /api/company-info/:symbol` in `src/nodejs-backend.js`
(textually identical logic to the server.js handler). -/
def nodeCompanyInfo (symbol : String) : InfoOutcome → InfoResponse
  | .failure msg =>
      { status := 500
        error := some "Failed to fetch company information"
        details := some msg
        suggestion := some "Please try again or check if the symbol exists" }
  | .success data =>
      if truthy data.Note then
        { status := 429
          error := some "API rate limit reached"
          suggestion := some "Alpha Vantage allows 5 requests per minute. Please try again in a moment." }
      else if truthy data.Information then
        { status := 400
          error := some "API request issue"
          details := data.Information }
      else if !truthy data.Name && !truthy data.Symbol then
        { status := 404
          error := some "Company not found"
          suggestion := some "Please check the stock symbol and try again" }
      else
        { status := 200
          info := some
            { name := stringOr data.Name "Unknown Company"
              symbol := stringOr data.Symbol (upperStr symbol)
              sector := stringOr data.Sector "Not Available"
              industry := stringOr data.Industry "Not Available"
              marketCap := stringOr data.MarketCapitalization "Not Available"
              description := stringOr data.Description "No description available"
              exchange := stringOr data.Exchange "Not Available"
              country := stringOr data.Country "Not Available"
              annualReport :=
                if truthy data.Symbol then
                  some { year := "2023"
                         title := stringOr data.Name symbol ++ " Annual Report 2023"
                         url := "https://www.sec.gov/edgar/search/#/entityName=" ++
                                encodeURIComponent (stringOr data.Name symbol)
                         type := "SEC EDGAR Database" }
                else none } }

/-! ## Symbol-search endpoint data model (`/api/search-symbol/:companyName`) -/

/-- One raw upstream symbol-search hit (`bestMatches` element); the
numbered JSON keys of the provider are modelled as named fields. -/
structure RawMatch where
  symbol : Option String := none
  name : Option String := none
  type : Option String := none
  region : Option String := none
  currency : Option String := none
deriving DecidableEq

/-- Raw payload of the symbol-search upstream, as used by the handlers:
the rate-limit marker `Note` and `data.bestMatches || []`. -/
structure SymbolSearchPayload where
  Note : Option String := none
  bestMatches : List RawMatch := []
deriving DecidableEq

/-- Outcome of the outbound symbol-search call. -/
inductive SearchOutcome where
  | success : SymbolSearchPayload → SearchOutcome
  | failure : String → SearchOutcome
deriving DecidableEq

/-- JSON response of the symbol-search endpoint; `fallback` is `true`
exactly when the handler writes `fallback: true` (an absent flag is
modelled as `false`). -/
structure SymbolResponse where
  status : Nat := 200
  symbol : Option String := none
  name : Option String := none
  type : Option String := none
  region : Option String := none
  currency : Option String := none
  source : Option String := none
  message : Option String := none
  suggestion : Option String := none
  error : Option String := none
  fallback : Bool := false
deriving DecidableEq

/-- The static alias table `commonCompanies` of `src/server.js`. -/
def commonCompanies : List (String × String) :=
  [("apple", "AAPL"), ("microsoft", "MSFT"), ("google", "GOOGL"),
   ("alphabet", "GOOGL"), ("tesla", "TSLA"), ("amazon", "AMZN"),
   ("meta", "META"), ("facebook", "META"), ("netflix", "NFLX"),
   ("nvidia", "NVDA")]

/-- `commonCompanies[searchKey]` (a truthy hit, since every table value
is a non-empty string). -/
def aliasLookup (k : String) : Option String :=
  commonCompanies.lookup k

/-- The qualification test of the server.js selection loop:
`matchName.includes(searchKey) && region === 'United States' &&
type.includes('Equity')`. -/
def qualifies (searchKey : String) (m : RawMatch) : Bool :=
  strContains (lowerStr (m.name.getD "")) searchKey &&
  (m.region.getD "" == "United States") &&
  strContains (m.type.getD "") "Equity"

/-- The `topMatch` selection loop of `src/server.js`: iterate the
matches carrying the current `topMatch` accumulator; on a qualifying
candidate, short-circuit if the key is exactly `apple` and the name
contains `apple inc`, else keep the candidate when there is no current
`topMatch` or its lowercased name is strictly shorter. -/
def serverSelect (searchKey : String) : List RawMatch → Option RawMatch → Option RawMatch
  | [], top => top
  | m :: ms, top =>
      let matchName := lowerStr (m.name.getD "")
      if qualifies searchKey m then
        if searchKey == "apple" && strContains matchName "apple inc" then
          some m
        else if (match top with
                 | none => true
                 | some t => matchName.length < (t.name.getD "").length : Bool) then
          serverSelect searchKey ms (some m)
        else
          serverSelect searchKey ms top
      else
        serverSelect searchKey ms top

/-- The `topMatch` selection loop of `src/nodejs-backend.js`: take the
first match with region `United States` and a type containing `Equity`. -/
def nodeSelect : List RawMatch → Option RawMatch
  | [] => none
  | m :: ms =>
      if (m.region.getD "" == "United States") && strContains (m.type.getD "") "Equity" then
        some m
      else
        nodeSelect ms

/-- The `result` object built from `topMatch` in `src/server.js`. -/
def apiSearchResult (m : RawMatch) : SymbolResponse :=
  { symbol := m.symbol
    name := m.name
    type := m.type
    region := m.region
    currency := m.currency
    source := some "api_search" }

/-- The `result` object built from `topMatch` in `src/nodejs-backend.js`
(same fields, without a `source` tag). -/
def nodeApiResult (m : RawMatch) : SymbolResponse :=
  { symbol := m.symbol
    name := m.name
    type := m.type
    region := m.region
    currency := m.currency }

/-- `GET /api/search-symbol/:companyName` in `src/server.js`. The
upstream call happens first; its outcome is the `SearchOutcome`
argument. On success the handler checks the rate-limit marker, then the
alias table, then runs the selection loop, then falls back to the first
raw match, then reports no match; a transport failure is caught and
turned into a fallback body. -/
def serverSearchSymbol (companyName : String) : SearchOutcome → SymbolResponse
  | .failure msg =>
      { symbol := none
        message := some "Symbol search failed, but news search will still work"
        error := some msg
        fallback := true }
  | .success data =>
      if truthy data.Note then
        { symbol := none
          message := some "Symbol search temporarily unavailable due to API limits"
          fallback := true }
      else
        let ms := data.bestMatches
        let searchKey := trimStr (lowerStr companyName)
        match aliasLookup searchKey with
        | some symbol =>
            { symbol := some symbol
              name := some companyName
              type := some "Equity"
              region := some "United States"
              currency := some "USD"
              source := some "direct_match" }
        | none =>
            let top0 := serverSelect searchKey ms none
            let topMatch := match top0 with
                            | none => ms.head?
                            | some t => some t
            match topMatch with
            | some m => apiSearchResult m
            | none =>
                { symbol := none
                  message := some "No matching stock symbol found. Company may be private or use different name."
                  suggestion := some "Try searching with the exact company legal name or stock ticker" }

/-- `GET /api/search-symbol/:companyName` in `src/nodejs-backend.js`:
same structure, but with no alias table and the simpler selection loop,
and no `source` tag on the result. -/
def nodeSearchSymbol (companyName : String) : SearchOutcome → SymbolResponse
  | .failure msg =>
      { symbol := none
        message := some "Symbol search failed, but news search will still work"
        error := some msg
        fallback := true }
  | .success data =>
      if truthy data.Note then
        { symbol := none
          message := some "Symbol search temporarily unavailable due to API limits"
          fallback := true }
      else
        let ms := data.bestMatches
        let top0 := nodeSelect ms
        let topMatch := match top0 with
                        | none => ms.head?
                        | some t => some t
        match topMatch with
        | some m => nodeApiResult m
        | none =>
            { symbol := none
              message := some "No matching stock symbol found. Company may be private or use different name."
              suggestion := some "Try searching with the exact company legal name or stock ticker" }

/-- Name length used by the selection heuristic of `src/server.js`. -/
def nameLen (m : RawMatch) : Nat :=
  (m.name.getD "").length

/-- One accumulator step of the server.js selection loop, restricted to
qualifying candidates (used to characterise the loop when the `apple`
short-circuit is disabled). -/
def selStep (top : Option RawMatch) (m : RawMatch) : Option RawMatch :=
  match top with
  | none => some m
  | some t =>
      if (lowerStr (m.name.getD "")).length < (t.name.getD "").length then some m else some t

/-! ## Concrete fixtures used in scenario theorems -/

/-- The Apple Hospitality REIT raw match of the disambiguation scenario. -/
def appleHosp : RawMatch :=
  { symbol := some "APLE"
    name := some "Apple Hospitality REIT"
    type := some "Equity"
    region := some "United States"
    currency := some "USD" }

/-- The Apple Inc raw match of the disambiguation scenario. -/
def appleInc : RawMatch :=
  { symbol := some "AAPL"
    name := some "Apple Inc"
    type := some "Equity Common Stock"
    region := some "United States"
    currency := some "USD" }

/-- A raw article that survives the news filter. -/
def goodArticle : RawArticle :=
  { title := some "Good news"
    source := some { name := some "CNN" }
    publishedAt := some "2026-01-02T10:00:00Z"
    description := some "d"
    url := some "u"
    urlToImage := some "i" }

/-- The public article produced from `goodArticle`. -/
def goodPublic : PublicArticle :=
  { title := "Good news"
    source := "CNN"
    date := "2026-01-02"
    summary := "d"
    url := some "u"
    imageUrl := some "i" }

/-- A longer-named qualifying US-equity match for the key `ford`. -/
def fordCredit : RawMatch :=
  { symbol := some "F-CR"
    name := some "Ford Motor Credit Co"
    type := some "Equity"
    region := some "United States"
    currency := some "USD" }

/-- A shorter-named qualifying US-equity match for the key `ford`. -/
def fordMotor : RawMatch :=
  { symbol := some "F"
    name := some "Ford Motor Co"
    type := some "Equity"
    region := some "United States"
    currency := some "USD" }

/-! ## Helper lemmas -/

/-- Character-wise lowercasing preserves string length. -/
theorem lowerStr_length (s : String) : (lowerStr s).length = s.length :=
  List.length_map s.data Char.toLower

/-- A truthy optional string is present and non-empty. -/
theorem truthy_getD_ne {o : Option String} (h : truthy o = true) : o.getD "" ≠ "" := by
  cases o with
  | none => simp [truthy] at h
  | some s => simpa [truthy] using h

/-- The accumulator step compares plain name lengths. -/
theorem selStep_eq (t m : RawMatch) :
    selStep (some t) m = if nameLen m < nameLen t then some m else some t := by
  simp [selStep, nameLen, lowerStr_length]

/-- With the `apple` short-circuit disabled, the server.js selection loop
is a left fold of the accumulator step over the qualifying candidates. -/
theorem serverSelect_eq_foldl (k : String) (hk : k ≠ "apple") :
    ∀ (ms : List RawMatch) (top : Option RawMatch),
      serverSelect k ms top = (ms.filter (qualifies k)).foldl selStep top := by
  have hkb : (k == "apple") = false := beq_eq_false_iff_ne.mpr hk
  intro ms
  induction ms with
  | nil => intro top; rfl
  | cons m rest ih =>
      intro top
      simp only [serverSelect, List.filter_cons]
      by_cases hq : qualifies k m
      · simp only [hq, if_true, hkb, Bool.false_and, Bool.false_eq_true, if_false,
          List.foldl_cons]
        cases top with
        | none => simpa [selStep] using ih (some m)
        | some t =>
            by_cases hlt : (lowerStr (m.name.getD "")).length < (t.name.getD "").length
            · simpa [hlt, selStep] using ih (some m)
            · simpa [hlt, selStep] using ih (some t)
      · simp [hq, ih]

/-- Folding the accumulator step over a list starting from `some t`
yields the earliest element of minimal name length of `t :: l`: the
result splits the list so that everything strictly before the winner is
strictly longer, and nothing anywhere is shorter. -/
theorem foldl_selStep_min :
    ∀ (l : List RawMatch) (t : RawMatch),
      ∃ m l1 l2,
        l.foldl selStep (some t) = some m ∧
        t :: l = l1 ++ m :: l2 ∧
        (∀ q ∈ l1, nameLen m < nameLen q) ∧
        (∀ q ∈ t :: l, nameLen m ≤ nameLen q) := by
  intro l
  induction l with
  | nil =>
      intro t
      refine ⟨t, [], [], rfl, rfl, ?_, ?_⟩
      · intro q hq
        exact absurd hq (List.not_mem_nil q)
      · intro q hq
        rcases List.mem_cons.mp hq with rfl | hq'
        · exact Nat.le_refl _
        · exact absurd hq' (List.not_mem_nil q)
  | cons a rest ih =>
      intro t
      rw [List.foldl_cons, selStep_eq]
      by_cases h : nameLen a < nameLen t
      · rw [if_pos h]
        obtain ⟨m, l1, l2, hf, hsplit, hlt, hle⟩ := ih a
        have hma : nameLen m ≤ nameLen a := hle a (List.mem_cons_self a rest)
        refine ⟨m, t :: l1, l2, hf, ?_, ?_, ?_⟩
        · rw [List.cons_append, ← hsplit]
        · intro q hq
          rcases List.mem_cons.mp hq with rfl | hq'
          · omega
          · exact hlt q hq'
        · intro q hq
          rcases List.mem_cons.mp hq with rfl | hq'
          · omega
          · exact hle q hq'
      · rw [if_neg h]
        obtain ⟨m, l1, l2, hf, hsplit, hlt, hle⟩ := ih t
        cases l1 with
        | nil =>
            simp only [List.nil_append] at hsplit
            injection hsplit with h1 h2
            subst h1
            subst h2
            refine ⟨t, [], a :: rest, hf, rfl, ?_, ?_⟩
            · intro q hq
              exact absurd hq (List.not_mem_nil q)
            · intro q hq
              rcases List.mem_cons.mp hq with rfl | hq'
              · exact Nat.le_refl _
              · rcases List.mem_cons.mp hq' with rfl | hq''
                · omega
                · exact hle q (List.mem_cons_of_mem t hq'')
        | cons x l1' =>
            simp only [List.cons_append] at hsplit
            injection hsplit with h1 h2
            subst h1
            have hmt : nameLen m < nameLen t := hlt t (List.mem_cons_self t l1')
            refine ⟨m, t :: a :: l1', l2, hf, ?_, ?_, ?_⟩
            · rw [List.cons_append, List.cons_append, ← h2]
            · intro q hq
              rcases List.mem_cons.mp hq with rfl | hq'
              · exact hmt
              · rcases List.mem_cons.mp hq' with rfl | hq''
                · omega
                · exact hlt q (List.mem_cons_of_mem t hq'')
            · intro q hq
              rcases List.mem_cons.mp hq with rfl | hq'
              · exact Nat.le_of_lt hmt
              · rcases List.mem_cons.mp hq' with rfl | hq''
                · omega
                · exact hle q (List.mem_cons_of_mem t hq'')

/-- Every branch of the server.js symbol handler answers with status 200. -/
theorem serverSearchSymbol_status (n : String) (o : SearchOutcome) :
    (serverSearchSymbol n o).status = 200 := by
  cases o with
  | failure msg => rfl
  | success p =>
      simp only [serverSearchSymbol]
      by_cases hn : truthy p.Note = true
      · simp [hn]
      · simp only [hn, if_false]
        cases ha : aliasLookup (trimStr (lowerStr n)) with
        | some s => simp [ha]
        | none =>
            simp only [ha]
            cases hsel : serverSelect (trimStr (lowerStr n)) p.bestMatches none with
            | some m => simp [hsel, apiSearchResult]
            | none =>
                cases hh : p.bestMatches.head? with
                | some m => simp [hsel, hh, apiSearchResult]
                | none => simp [hsel, hh]

/-! ## Claim theorems -/

/-- Claim C1, counterexample. The claim asserts that for an alias-table
name the alias result is returned whatever the upstream outcome is, with
no upstream call made. In `src/server.js` the upstream call happens
first and both the rate-limit marker and a transport failure
short-circuit to a null-symbol fallback BEFORE the alias table is
consulted, so for the alias name `  ApPLe ` the result does depend on
the upstream outcome. -/
theorem C1_counterexample :
    (serverSearchSymbol "  ApPLe " (.success { Note := some "limit", bestMatches := [] })).symbol
      = none ∧
    (serverSearchSymbol "  ApPLe " (.failure "timeout")).symbol = none ∧
    (serverSearchSymbol "  ApPLe " (.success { Note := none, bestMatches := [] })).symbol
      = some "AAPL" := by
  exact ⟨by decide, by decide, by decide⟩

/-- Claim C1, amended. When the upstream call succeeds without a
rate-limit marker, a company name whose lowercased trimmed form is an
alias-table key resolves to the alias symbol with provenance
`direct_match`, type `Equity`, region `United States`, currency `USD`,
independently of the returned match list; the alias lookup takes
precedence over the match-list disambiguation, but not over the
rate-limit marker or a transport failure, which are checked earlier and
yield the fallback body instead. -/
theorem C1_amended_alias_hit (companyName sym : String) (p : SymbolSearchPayload)
    (hNote : truthy p.Note = false)
    (hAlias : aliasLookup (trimStr (lowerStr companyName)) = some sym) :
    serverSearchSymbol companyName (.success p) =
      { symbol := some sym
        name := some companyName
        type := some "Equity"
        region := some "United States"
        currency := some "USD"
        source := some "direct_match" } := by
  simp [serverSearchSymbol, hNote, hAlias]

/-- Claim C1, witness: the amended theorem applied to the spec example
`  ApPLe ` with a non-empty match list present upstream. -/
theorem C1_witness :
    serverSearchSymbol "  ApPLe " (.success { Note := none, bestMatches := [appleHosp] }) =
      { symbol := some "AAPL"
        name := some "  ApPLe "
        type := some "Equity"
        region := some "United States"
        currency := some "USD"
        source := some "direct_match" } :=
  C1_amended_alias_hit "  ApPLe " "AAPL" { Note := none, bestMatches := [appleHosp] }
    (by decide) (by decide)

/-- Claim C2, counterexample. The claim asserts that every degraded
outcome, including no match, carries `fallback: true`. The no-match
branch of `src/server.js` answers with a null symbol and a suggestion
but WITHOUT the fallback flag. -/
theorem C2_counterexample :
    (serverSearchSymbol "Zzzz Private Co" (.success { Note := none, bestMatches := [] })).symbol
      = none ∧
    (serverSearchSymbol "Zzzz Private Co" (.success { Note := none, bestMatches := [] })).fallback
      = false ∧
    (serverSearchSymbol "Zzzz Private Co" (.success { Note := none, bestMatches := [] })).suggestion
      = some "Try searching with the exact company legal name or stock ticker" := by
  exact ⟨by decide, by decide, by decide⟩

/-- Claim C2, amended. The symbol-resolution endpoint always answers
with HTTP status 200; a transport failure and a rate-limit marker are
encoded as a null symbol with `fallback: true` and an explanatory
message, while a no-match outcome is encoded as a null symbol with a
message and a suggestion but without the fallback flag. -/
theorem C2_amended_always_200 :
    (∀ (n : String) (o : SearchOutcome), (serverSearchSymbol n o).status = 200) ∧
    (∀ (n msg : String),
        (serverSearchSymbol n (.failure msg)).symbol = none ∧
        (serverSearchSymbol n (.failure msg)).fallback = true ∧
        (serverSearchSymbol n (.failure msg)).message.isSome = true) ∧
    (∀ (n : String) (p : SymbolSearchPayload), truthy p.Note = true →
        (serverSearchSymbol n (.success p)).symbol = none ∧
        (serverSearchSymbol n (.success p)).fallback = true ∧
        (serverSearchSymbol n (.success p)).message.isSome = true) ∧
    (∀ (n : String) (p : SymbolSearchPayload), truthy p.Note = false →
        aliasLookup (trimStr (lowerStr n)) = none → p.bestMatches = [] →
        (serverSearchSymbol n (.success p)).symbol = none ∧
        (serverSearchSymbol n (.success p)).fallback = false ∧
        (serverSearchSymbol n (.success p)).suggestion.isSome = true) := by
  refine ⟨serverSearchSymbol_status, ?_, ?_, ?_⟩
  · intro n msg
    exact ⟨rfl, rfl, rfl⟩
  · intro n p hn
    simp [serverSearchSymbol, hn]
  · intro n p hn ha he
    simp [serverSearchSymbol, hn, ha, he, serverSelect]

/-- Claim C2, witness: the amended theorem applied at a transport
failure, a rate-limited payload and an empty match list. -/
theorem C2_witness :
    (serverSearchSymbol "Tesla" (.failure "boom")).status = 200 ∧
    (serverSearchSymbol "Tesla" (.failure "boom")).fallback = true ∧
    (serverSearchSymbol "Zzzz" (.success { Note := some "limit" })).fallback = true ∧
    (serverSearchSymbol "Zzzz" (.success {})).fallback = false :=
  ⟨C2_amended_always_200.1 "Tesla" (.failure "boom"),
   (C2_amended_always_200.2.1 "Tesla" "boom").2.1,
   (C2_amended_always_200.2.2.1 "Zzzz" { Note := some "limit" } (by decide)).2.1,
   (C2_amended_always_200.2.2.2 "Zzzz" {} (by decide) (by decide) rfl).2.1⟩

/-- Claim C3: the company-info handler classifies a raw fundamentals
payload in this exact priority: a truthy rate-limit marker `Note` gives
status 429 with the quota suggestion; otherwise a truthy `Information`
marker gives status 400 with detail equal to the marker; otherwise a
payload with neither a truthy `Name` nor a truthy `Symbol` gives status
404; otherwise the handler answers 200 with a formatted company info. -/
theorem C3_info_priority (symbol : String) (p : OverviewPayload) :
    (truthy p.Note = true →
        (serverCompanyInfo symbol (.success p)).status = 429 ∧
        (serverCompanyInfo symbol (.success p)).suggestion =
          some "Alpha Vantage allows 5 requests per minute. Please try again in a moment.") ∧
    (truthy p.Note = false → truthy p.Information = true →
        (serverCompanyInfo symbol (.success p)).status = 400 ∧
        (serverCompanyInfo symbol (.success p)).details = p.Information) ∧
    (truthy p.Note = false → truthy p.Information = false →
        truthy p.Name = false → truthy p.Symbol = false →
        (serverCompanyInfo symbol (.success p)).status = 404) ∧
    (truthy p.Note = false → truthy p.Information = false →
        (truthy p.Name = true ∨ truthy p.Symbol = true) →
        (serverCompanyInfo symbol (.success p)).status = 200 ∧
        (serverCompanyInfo symbol (.success p)).info.isSome = true) := by
  refine ⟨?_, ?_, ?_, ?_⟩
  · intro h1
    constructor <;> simp [serverCompanyInfo, h1]
  · intro h1 h2
    constructor <;> simp [serverCompanyInfo, h1, h2]
  · intro h1 h2 h3 h4
    simp [serverCompanyInfo, h1, h2, h3, h4]
  · intro h1 h2 h3
    rcases h3 with h | h <;> constructor <;> simp [serverCompanyInfo, h1, h2, h]

/-- Claim C3, witness: the four priority branches at concrete payloads. -/
theorem C3_witness :
    (serverCompanyInfo "IBM" (.success { Note := some "limit" })).status = 429 ∧
    (serverCompanyInfo "IBM" (.success { Information := some "bad key" })).status = 400 ∧
    (serverCompanyInfo "IBM" (.success {})).status = 404 ∧
    (serverCompanyInfo "IBM"
        (.success { Name := some "Apple Inc", Symbol := some "AAPL" })).status = 200 :=
  ⟨((C3_info_priority "IBM" { Note := some "limit" }).1 (by decide)).1,
   ((C3_info_priority "IBM" { Information := some "bad key" }).2.1 (by decide) (by decide)).1,
   (C3_info_priority "IBM" {}).2.2.1 (by decide) (by decide) (by decide) (by decide),
   ((C3_info_priority "IBM" { Name := some "Apple Inc", Symbol := some "AAPL" }).2.2.2
      (by decide) (by decide) (Or.inl (by decide))).1⟩

/-- Claim C4: for every raw article list the news pipeline outputs at
most 8 articles, and every output element has a non-empty title and a
non-empty source name, a title different from the literal `[Removed]`,
and a lowercased title not containing the substring `removed`. -/
theorem C4_formatNews_cap_and_clean (today : String) (l : List RawArticle) :
    (formatNews today l).length ≤ 8 ∧
    ∀ a ∈ formatNews today l,
      a.title ≠ "" ∧ a.source ≠ "" ∧ a.title ≠ "[Removed]" ∧
      strContains (lowerStr a.title) "removed" = false := by
  constructor
  · simp only [formatNews, filterCap, List.length_map, List.length_take]
    exact min_le_left _ _
  · intro a ha
    obtain ⟨b, hb, rfl⟩ := List.mem_map.mp ha
    have hbf : b ∈ l.filter keepArticle := List.mem_of_mem_take hb
    have hk : keepArticle b = true := (List.mem_filter.mp hbf).2
    simp only [keepArticle, Bool.and_eq_true, Bool.not_eq_eq_eq_not, Bool.not_true,
      beq_eq_false_iff_ne, ne_eq] at hk
    obtain ⟨⟨⟨h1, h2⟩, h3⟩, h4⟩ := hk
    refine ⟨truthy_getD_ne h1, truthy_getD_ne h2, h3, ?_⟩
    simpa [toPublic] using h4

/-- Claim C4, witness: the theorem applied to a concrete list and a
concrete member of its output. -/
theorem C4_witness :
    (formatNews "2026-01-01" [goodArticle]).length ≤ 8 ∧ goodPublic.title ≠ "" :=
  ⟨(C4_formatNews_cap_and_clean "2026-01-01" [goodArticle]).1,
   ((C4_formatNews_cap_and_clean "2026-01-01" [goodArticle]).2 goodPublic (by decide)).1⟩

/-- Claim C5, counterexample. The claim asserts that the whole pipeline
is idempotent. The map stage replaces the `source` object by a plain
string, so re-reading an output article gives an undefined
`source?.name` and the second pass drops every article: on a one-article
list the second application returns the empty list, not the output. -/
theorem C5_counterexample :
    formatNews "2026-01-01" ((formatNews "2026-01-01" [goodArticle]).map reparse) ≠
      formatNews "2026-01-01" [goodArticle] := by
  decide

/-- Claim C5, amended. The filter-and-cap stage of the pipeline is
idempotent on raw article lists: filtering and truncating an already
filtered-and-truncated list is a no-op. The full pipeline is not
idempotent, because its map stage changes the article shape (the
`source` object becomes a plain string), so a second application drops
every article of a non-empty output. -/
theorem C5_amended_filterCap_idem (l : List RawArticle) :
    filterCap (filterCap l) = filterCap l := by
  unfold filterCap
  have h1 : ((l.filter keepArticle).take 8).filter keepArticle =
      (l.filter keepArticle).take 8 := by
    apply List.filter_eq_self.mpr
    intro a ha
    exact (List.mem_filter.mp (List.mem_of_mem_take ha)).2
  rw [h1, List.take_take]
  norm_num

/-- Claim C6: the formatted output is the image, under the map stage, of
a sublist of the input: each output element comes from a distinct
retained input article and the relative input order is preserved. -/
theorem C6_output_subsequence (today : String) (l : List RawArticle) :
    ∃ sub : List RawArticle,
      List.Sublist sub l ∧ formatNews today l = sub.map (toPublic today) :=
  ⟨filterCap l, (List.take_sublist 8 _).trans (List.filter_sublist l), rfl⟩

/-- Claim C7, counterexample. The claim asserts that on the scenario
match list the resolver returns the Apple Inc match, citing both source
files. The `src/nodejs-backend.js` resolver has no tie-break: it takes
the first US-equity match, which is Apple Hospitality REIT, not Apple
Inc. -/
theorem C7_counterexample :
    (nodeSearchSymbol "apple"
        (.success { Note := none, bestMatches := [appleHosp, appleInc] })).name =
      some "Apple Hospitality REIT" ∧
    (nodeSearchSymbol "apple"
        (.success { Note := none, bestMatches := [appleHosp, appleInc] })).name ≠
      some "Apple Inc" ∧
    (nodeSearchSymbol "apple"
        (.success { Note := none, bestMatches := [appleHosp, appleInc] })).symbol =
      some "APLE" := by
  exact ⟨by decide, by decide, by decide⟩

/-- Claim C7, amended. The selection loop of `src/server.js` applied to
the search key `apple` and the scenario match list does pick the Apple
Inc match via the tie-break, and the `api_search` result built from
that match carries its symbol, name, type, region and currency; the
`src/nodejs-backend.js` resolver instead returns the first US-equity
match, Apple Hospitality REIT. (In `src/server.js` itself a run with key
`apple` never reaches the loop, because the alias table resolves
`apple` first; the claim takes the key as not alias-resolved.) -/
theorem C7_amended_server_tiebreak :
    serverSelect "apple" [appleHosp, appleInc] none = some appleInc ∧
    apiSearchResult appleInc =
      { status := 200
        symbol := some "AAPL"
        name := some "Apple Inc"
        type := some "Equity Common Stock"
        region := some "United States"
        currency := some "USD"
        source := some "api_search"
        message := none
        suggestion := none
        error := none
        fallback := false } := by
  exact ⟨by decide, by decide⟩

/-- Claim C8, counterexample. The claim, citing both source files,
asserts that (outside the `apple` case) the resolver picks a qualifying
candidate of minimal name length. The `src/nodejs-backend.js` resolver
ignores name containment and length and takes the first US-equity
match: on the key `ford` with a longer-named candidate first, it
returns `Ford Motor Credit Co` although `Ford Motor Co` is shorter and
also qualifies. -/
theorem C8_counterexample :
    (nodeSearchSymbol "ford"
        (.success { Note := none, bestMatches := [fordCredit, fordMotor] })).name =
      some "Ford Motor Credit Co" ∧
    nameLen fordMotor < nameLen fordCredit ∧
    qualifies "ford" fordMotor = true := by
  exact ⟨by decide, by decide, by decide⟩

/-- Claim C8, amended (holds for `src/server.js` only). For a search key
other than `apple` whose alias lookup misses, on a success payload
without a rate-limit marker and with at least one qualifying candidate
(lowercased name containing the key, region `United States`, type
containing `Equity`), the server.js resolver answers with the
`api_search` result of a qualifying candidate of minimal name length,
the earliest one when several tie; `src/nodejs-backend.js` instead
takes the first US-equity match regardless of name. -/
theorem C8_amended_server_shortest (companyName : String) (p : SymbolSearchPayload)
    (hNote : truthy p.Note = false)
    (hAlias : aliasLookup (trimStr (lowerStr companyName)) = none)
    (hKey : trimStr (lowerStr companyName) ≠ "apple")
    (hq : p.bestMatches.filter (qualifies (trimStr (lowerStr companyName))) ≠ []) :
    ∃ m l1 l2,
      serverSearchSymbol companyName (.success p) = apiSearchResult m ∧
      serverSelect (trimStr (lowerStr companyName)) p.bestMatches none = some m ∧
      p.bestMatches.filter (qualifies (trimStr (lowerStr companyName))) = l1 ++ m :: l2 ∧
      (∀ q ∈ l1, nameLen m < nameLen q) ∧
      (∀ q ∈ p.bestMatches.filter (qualifies (trimStr (lowerStr companyName))),
        nameLen m ≤ nameLen q) := by
  set k := trimStr (lowerStr companyName) with hkdef
  obtain ⟨t, rest, hfil⟩ : ∃ t rest, p.bestMatches.filter (qualifies k) = t :: rest := by
    cases hf : p.bestMatches.filter (qualifies k) with
    | nil => exact absurd hf hq
    | cons t rest => exact ⟨t, rest, rfl⟩
  have hsel : serverSelect k p.bestMatches none =
      (p.bestMatches.filter (qualifies k)).foldl selStep none :=
    serverSelect_eq_foldl k hKey p.bestMatches none
  rw [hfil] at hsel
  have hsel2 : serverSelect k p.bestMatches none = rest.foldl selStep (some t) := by
    simpa [selStep] using hsel
  obtain ⟨m, l1, l2, hf, hsplit, hlt, hle⟩ := foldl_selStep_min rest t
  have hsome : serverSelect k p.bestMatches none = some m := by
    rw [hsel2, hf]
  refine ⟨m, l1, l2, ?_, hsome, ?_, hlt, ?_⟩
  · simp [serverSearchSymbol, hNote, hAlias, hsome, ← hkdef]
  · rw [hfil]
    exact hsplit
  · intro q hqm
    rw [hfil] at hqm
    exact hle q hqm

/-- Claim C8, witness: the amended theorem applied to the key `ford`
and a two-candidate match list where the shorter qualifying name comes
second. -/
theorem C8_witness :
    ∃ m l1 l2,
      serverSearchSymbol "ford"
          (.success { Note := none, bestMatches := [fordCredit, fordMotor] }) =
        apiSearchResult m ∧
      serverSelect (trimStr (lowerStr "ford")) [fordCredit, fordMotor] none = some m ∧
      List.filter (qualifies (trimStr (lowerStr "ford"))) [fordCredit, fordMotor] =
        l1 ++ m :: l2 ∧
      (∀ q ∈ l1, nameLen m < nameLen q) ∧
      (∀ q ∈ List.filter (qualifies (trimStr (lowerStr "ford"))) [fordCredit, fordMotor],
        nameLen m ≤ nameLen q) :=
  C8_amended_server_shortest "ford" { Note := none, bestMatches := [fordCredit, fordMotor] }
    (by decide) (by decide) (by decide) (by decide)

/-- Claim C9, counterexample. The two symbol-search endpoints are not
equivalent: on the input `apple` with a successful empty match list,
`src/server.js` answers the alias-table AAPL result while
`src/nodejs-backend.js` answers the no-match body. -/
theorem C9_counterexample :
    serverSearchSymbol "apple" (.success { Note := none, bestMatches := [] }) ≠
      nodeSearchSymbol "apple" (.success { Note := none, bestMatches := [] }) := by
  decide

/-- Claim C9, amended. The news and company-info handlers of the two
files are exact duplicates and produce equal responses on every input
and upstream outcome; the symbol-search handlers differ
(`src/server.js` adds the alias table, name-containment qualification,
the `apple` tie-break, the shortest-name preference and a `source`
tag, none of which `src/nodejs-backend.js` has). -/
theorem C9_amended_other_endpoints_equal :
    (∀ (n t : String) (o : NewsOutcome), serverCompanyNews n t o = nodeCompanyNews n t o) ∧
    (∀ (s : String) (o : InfoOutcome), serverCompanyInfo s o = nodeCompanyInfo s o) := by
  constructor
  · intro n t o
    cases o <;> rfl
  · intro s o
    cases o <;> rfl

/-- Claim C10: in the news success response, `totalResults` is the
upstream total (defaulting to 0 when absent), independent of the
filtering and the 8-article cap, and on a concrete input it exceeds the
length of the returned news list. -/
theorem C10_totalResults_independent :
    (∀ (n today : String) (p : NewsPayload),
        (serverCompanyNews n today (.success p)).totalResults =
          some (p.totalResults.getD 0)) ∧
    ((serverCompanyNews "Apple" "2026-01-01"
        (.success { articles := none, totalResults := some 100 })).totalResults.getD 0 >
      ((serverCompanyNews "Apple" "2026-01-01"
        (.success { articles := none, totalResults := some 100 })).news.getD []).length) := by
  constructor
  · intro n today p
    rfl
  · decide
